import Mathlib

/-! Verification development for the volcano CLI list commands
    (pkg/cli/pod/list.go and pkg/cli/jobflow/list.go).

    The Go code is embedded shallowly: Kubernetes API structures become Lean
    structures holding exactly the fields the CLI reads, nil-able pointers
    become `Option`, `metav1.Time` becomes `Nat` (0 is the zero time,
    `Time.Before` is `<`), and the external `duration.HumanDuration` helper is
    passed in as a function parameter together with the current time `now`
    (the code only ever calls it through `time.Since`). -/

/-- ContainerStateWaiting mirrors corev1.ContainerStateWaiting (only the
field the CLI reads). -/
structure ContainerStateWaiting where
  Reason : String

/-- ContainerStateTerminated mirrors corev1.ContainerStateTerminated (only
the fields the CLI reads). -/
structure ContainerStateTerminated where
  ExitCode : Int
  Signal : Int
  Reason : String
  FinishedAt : Nat

/-- ContainerState mirrors corev1.ContainerState; each nil-able pointer
becomes an Option.  The CLI reads no field of the Running record, so it is
modelled as `Option Unit`. -/
structure ContainerState where
  Waiting : Option ContainerStateWaiting
  Running : Option Unit
  Terminated : Option ContainerStateTerminated

/-- ContainerStatus mirrors corev1.ContainerStatus (only the fields the CLI
reads). -/
structure ContainerStatus where
  Name : String
  Ready : Bool
  RestartCount : Nat
  State : ContainerState
  LastTerminationState : ContainerState
  Started : Option Bool

/-- Container mirrors corev1.Container (only the fields the CLI reads);
RestartPolicy is a nil-able pointer to a string. -/
structure Container where
  Name : String
  RestartPolicy : Option String

/-- PodCondition mirrors corev1.PodCondition (only the fields the CLI
reads); the Type, Status and Reason enums are strings in the API, and the
Go field Type is written here as the primed name because Type is reserved
in Lean. -/
structure PodCondition where
  Type' : String
  Status : String
  Reason : String

/-- PodSpec mirrors corev1.PodSpec (only the fields the CLI reads). -/
structure PodSpec where
  Containers : List Container
  InitContainers : List Container

/-- PodStatus mirrors corev1.PodStatus (only the fields the CLI reads). -/
structure PodStatus where
  Phase : String
  Reason : String
  Conditions : List PodCondition
  InitContainerStatuses : List ContainerStatus
  ContainerStatuses : List ContainerStatus

/-- Pod mirrors corev1.Pod (only the fields the CLI reads); the metadata
fields are inlined as in the Go selectors pod.Name, pod.Namespace,
pod.CreationTimestamp, pod.DeletionTimestamp. -/
structure Pod where
  Name : String
  Namespace : String
  CreationTimestamp : Nat
  DeletionTimestamp : Option Nat
  Spec : PodSpec
  Status : PodStatus

/-- PodInfo holds information about a pod (pkg/cli/pod/list.go). -/
structure PodInfo where
  Name : String
  ReadyContainers : String
  Status : String
  Restarts : String
  CreationTimestamp : String

/-- translateTimestampSince translates a timestamp into a human-readable
string using time.Since; duration.HumanDuration is an external library
function passed in as `humanDuration`, and `now` is the current time. -/
def translateTimestampSince (humanDuration : Nat → String) (now : Nat)
    (timestamp : Nat) : String :=
  if timestamp == 0 then "<unknown>"
  else humanDuration (now - timestamp)

/-- isRestartableInitContainer returns true if the given init container is
restartable (pkg/cli/pod/list.go); the Go nil-able pointer argument becomes
an Option. -/
def isRestartableInitContainer : Option Container → Bool
  | none => false
  | some initContainer =>
    match initContainer.RestartPolicy with
    | none => false
    | some p => p == "Always"

/-- hasPodReadyCondition returns true if the pod has a ready condition
(pkg/cli/pod/list.go); corev1.PodReady is "Ready" and corev1.ConditionTrue
is "True". -/
def hasPodReadyCondition (conditions : List PodCondition) : Bool :=
  conditions.any (fun condition =>
    condition.Type' == "Ready" && condition.Status == "True")

/-- isPodInitializedConditionTrue returns true if the PodInitialized
condition is true (pkg/cli/pod/list.go); the Go loop returns at the first
condition whose Type is "Initialized" ("Initialized" = corev1.PodInitialized). -/
def isPodInitializedConditionTrue : List PodCondition → Bool
  | [] => false
  | condition :: rest =>
    if condition.Type' != "Initialized" then isPodInitializedConditionTrue rest
    else condition.Status == "True"

/-- isPodPhaseTerminal models the external helper
k8s.io/kubernetes/pkg/api/v1/pod.IsPodPhaseTerminal: a phase is terminal
exactly when it is Failed or Succeeded. -/
def isPodPhaseTerminal (phase : String) : Bool :=
  phase == "Failed" || phase == "Succeeded"

/-- startedTrue models the Go test `container.Started != nil &&
*container.Started` on the nil-able Started pointer. -/
def startedTrue (container : ContainerStatus) : Bool :=
  match container.Started with
  | none => false
  | some b => b

/-- lookupInit models reading the Go map built in printPod from init
container names to the declared init containers: insertion in declared
order with overwrite means a lookup returns the last declared container
with the given name. -/
def lookupInit : List Container → String → Option Container
  | [], _ => none
  | c :: rest, name =>
    match lookupInit rest name with
    | some d => some d
    | none => if c.Name == name then some c else none

/-- updateLastRestartDate models the repeated Go fragment that raises
lastRestartDate to the FinishedAt of the container's last termination state
when the latter is present and strictly later (metav1.Time.Before). -/
def updateLastRestartDate (lastRestartDate : Nat)
    (container : ContainerStatus) : Nat :=
  match container.LastTerminationState.Terminated with
  | none => lastRestartDate
  | some t =>
    if lastRestartDate < t.FinishedAt then t.FinishedAt else lastRestartDate

/-- InitScanState carries the local variables of printPod that the init
container loop reads and writes. -/
structure InitScanState where
  restarts : Nat
  lastRestartDate : Nat
  restartableInitContainerRestarts : Nat
  lastRestartableInitContainerRestartDate : Nat
  readyContainers : Nat
  reason : String
  initializing : Bool

/-- initScanLoop is the loop of printPod over pod.Status.InitContainerStatuses
(pkg/cli/pod/list.go): each iteration accumulates restart counts and last
termination dates (also separately for restartable init containers), then
runs the Go switch; the first two cases continue, every other case sets the
reason, marks the pod initializing and breaks.  `i` is the Go loop index
and `numInits` is len(pod.Spec.InitContainers). -/
def initScanLoop (inits : List Container) (numInits : Nat) :
    Nat → List ContainerStatus → InitScanState → InitScanState
  | _, [], s => s
  | i, container :: rest, s =>
    let s1 : InitScanState :=
      { s with
        restarts := s.restarts + container.RestartCount
        lastRestartDate := updateLastRestartDate s.lastRestartDate container }
    let s2 : InitScanState :=
      if isRestartableInitContainer (lookupInit inits container.Name) then
        { s1 with
          restartableInitContainerRestarts :=
            s1.restartableInitContainerRestarts + container.RestartCount
          lastRestartableInitContainerRestartDate :=
            updateLastRestartDate s1.lastRestartableInitContainerRestartDate
              container }
      else s1
    match container.State.Terminated with
    | some t =>
      if t.ExitCode == 0 then
        initScanLoop inits numInits (i + 1) rest s2
      else if isRestartableInitContainer (lookupInit inits container.Name)
          && startedTrue container then
        initScanLoop inits numInits (i + 1) rest
          (if container.Ready then
            { s2 with readyContainers := s2.readyContainers + 1 }
          else s2)
      else
        { s2 with
          initializing := true
          reason :=
            if t.Reason.length == 0 then
              if t.Signal != 0 then
                let sig := t.Signal
                "Init:Signal:" ++ toString sig
              else
                let code := t.ExitCode
                "Init:ExitCode:" ++ toString code
            else "Init:" ++ t.Reason }
    | none =>
      if isRestartableInitContainer (lookupInit inits container.Name)
          && startedTrue container then
        initScanLoop inits numInits (i + 1) rest
          (if container.Ready then
            { s2 with readyContainers := s2.readyContainers + 1 }
          else s2)
      else
        match container.State.Waiting with
        | some w =>
          if w.Reason.length > 0 && w.Reason != "PodInitializing" then
            { s2 with reason := "Init:" ++ w.Reason, initializing := true }
          else
            { s2 with
              reason := "Init:" ++ toString i ++ "/" ++ toString numInits
              initializing := true }
        | none =>
          { s2 with
            reason := "Init:" ++ toString i ++ "/" ++ toString numInits
            initializing := true }

/-- RegScanState carries the local variables of printPod that the reverse
loop over the regular container statuses reads and writes. -/
structure RegScanState where
  restarts : Nat
  lastRestartDate : Nat
  readyContainers : Nat
  reason : String
  hasRunning : Bool

/-- regScanRest is the tail of the if/else chain in printPod's
regular-container loop body, reached when the container is not waiting with
a non-empty reason: derive the reason from the terminated state, or count a
ready running container. -/
def regScanRest (s1 : RegScanState) (container : ContainerStatus) :
    RegScanState :=
  match container.State.Terminated with
  | some t =>
    if t.Reason != "" then { s1 with reason := t.Reason }
    else if t.Signal != 0 then
      let sig := t.Signal
      { s1 with reason := "Signal:" ++ toString sig }
    else
      let code := t.ExitCode
      { s1 with reason := "ExitCode:" ++ toString code }
  | none =>
    if container.Ready && container.State.Running.isSome then
      { s1 with
        hasRunning := true
        readyContainers := s1.readyContainers + 1 }
    else s1

/-- regScanStep is the body of the reverse loop of printPod over
pod.Status.ContainerStatuses: accumulate the restart count and last
termination date, then run the if/else chain deriving the reason (or
counting a ready running container). -/
def regScanStep (s : RegScanState) (container : ContainerStatus) :
    RegScanState :=
  let s1 : RegScanState :=
    { s with
      restarts := s.restarts + container.RestartCount
      lastRestartDate := updateLastRestartDate s.lastRestartDate container }
  match container.State.Waiting with
  | some w =>
    if w.Reason != "" then { s1 with reason := w.Reason }
    else regScanRest s1 container
  | none => regScanRest s1 container

/-- regScan runs printPod's regular-container loop, which walks
pod.Status.ContainerStatuses from the last index down to 0. -/
def regScan (containerStatuses : List ContainerStatus) (s : RegScanState) :
    RegScanState :=
  containerStatuses.reverse.foldl regScanStep s

/-- preScanReason is the reason printPod derives before the container scans:
the phase, overridden by a non-empty pod.Status.Reason, overridden by
"SchedulingGated" when a PodScheduled condition carries that reason. -/
def preScanReason (pod : Pod) : String :=
  let reason :=
    if pod.Status.Reason != "" then pod.Status.Reason else pod.Status.Phase
  pod.Status.Conditions.foldl
    (fun r condition =>
      if condition.Type' == "PodScheduled"
          && condition.Reason == "SchedulingGated" then "SchedulingGated"
      else r)
    reason

/-- initScanResult runs printPod's init-container loop from its initial
state (all counters 0, zero times, reason from preScanReason). -/
def initScanResult (pod : Pod) : InitScanState :=
  initScanLoop pod.Spec.InitContainers pod.Spec.InitContainers.length 0
    pod.Status.InitContainerStatuses
    { restarts := 0
      lastRestartDate := 0
      restartableInitContainerRestarts := 0
      lastRestartableInitContainerRestartDate := 0
      readyContainers := 0
      reason := preScanReason pod
      initializing := false }

/-- regScanResult runs printPod's reverse regular-container loop: restarts
and the last restart date restart from the restartable-init-container
accumulators, the ready count and reason carry over from the init loop, and
hasRunning starts false. -/
def regScanResult (pod : Pod) : RegScanState :=
  let is := initScanResult pod
  regScan pod.Status.ContainerStatuses
    { restarts := is.restartableInitContainerRestarts
      lastRestartDate := is.lastRestartableInitContainerRestartDate
      readyContainers := is.readyContainers
      reason := is.reason
      hasRunning := false }

/-- PodScan is the outcome of printPod's two scans and the Completed
post-processing, before the deletion-timestamp adjustment. -/
structure PodScan where
  restarts : Nat
  lastRestartDate : Nat
  readyContainers : Nat
  reason : String

/-- podScanState combines printPod's scans: the regular-container loop and
the Completed-to-Running/NotReady post-processing run only when the init
loop did not flag initialization or the PodInitialized condition is true;
otherwise the init-loop accumulators stand. -/
def podScanState (pod : Pod) : PodScan :=
  let is := initScanResult pod
  if !is.initializing || isPodInitializedConditionTrue pod.Status.Conditions then
    let rs := regScanResult pod
    let reason :=
      if rs.reason == "Completed" && rs.hasRunning then
        if hasPodReadyCondition pod.Status.Conditions then "Running"
        else "NotReady"
      else rs.reason
    { restarts := rs.restarts
      lastRestartDate := rs.lastRestartDate
      readyContainers := rs.readyContainers
      reason := reason }
  else
    { restarts := is.restarts
      lastRestartDate := is.lastRestartDate
      readyContainers := is.readyContainers
      reason := is.reason }

/-- printPod derives the display row of one pod (pkg/cli/pod/list.go).
totalContainers counts the regular containers plus the restartable init
containers; after the scans the reason is adjusted for a pending deletion
("NodeLost" = node.NodeUnreachablePodReason), and the restart cell gains the
"ago" suffix when restarts is non-zero and a last restart date is known.
The metav1.TableRow built in the Go function is dead for the returned
PodInfo and is not modelled. -/
def printPod (humanDuration : Nat → String) (now : Nat) (pod : Pod) :
    PodInfo :=
  let totalContainers :=
    pod.Spec.InitContainers.foldl
      (fun t c => if isRestartableInitContainer (some c) then t + 1 else t)
      pod.Spec.Containers.length
  let st := podScanState pod
  let reason :=
    if pod.DeletionTimestamp.isSome && pod.Status.Reason == "NodeLost" then
      "Unknown"
    else if pod.DeletionTimestamp.isSome
        && !isPodPhaseTerminal pod.Status.Phase then
      "Terminating"
    else st.reason
  let restartsStr :=
    if st.restarts != 0 && st.lastRestartDate != 0 then
      toString st.restarts ++ " ("
        ++ translateTimestampSince humanDuration now st.lastRestartDate
        ++ " ago)"
    else toString st.restarts
  { Name := pod.Name
    ReadyContainers :=
      toString st.readyContainers ++ "/" ++ toString totalContainers
    Status := reason
    Restarts := restartsStr
    CreationTimestamp :=
      translateTimestampSince humanDuration now pod.CreationTimestamp }

/-- PodLens holds the per-column maximum cell lengths accumulated by
PrintPods before the column spacing is added. -/
structure PodLens where
  name : Nat
  ready : Nat
  status : Nat
  restart : Nat
  age : Nat

/-- podMaxLensStep is the body of the PrintPods loop updating the running
per-column maxima with the cells of one PodInfo row. -/
def podMaxLensStep (s : PodLens) (info : PodInfo) : PodLens :=
  { name := if info.Name.length > s.name then info.Name.length else s.name
    ready :=
      if info.ReadyContainers.length > s.ready then info.ReadyContainers.length
      else s.ready
    status := if info.Status.length > s.status then info.Status.length
      else s.status
    restart := if info.Restarts.length > s.restart then info.Restarts.length
      else s.restart
    age :=
      if info.CreationTimestamp.length > s.age then
        info.CreationTimestamp.length
      else s.age }

/-- printPodsWidths computes the pad counts of the PrintPods format string:
the per-column maxima over all rows (starting from 0) plus the fixed
columnSpacing of 8. -/
def printPodsWidths (infoList : List PodInfo) : PodLens :=
  let m := infoList.foldl podMaxLensStep ⟨0, 0, 0, 0, 0⟩
  ⟨m.name + 8, m.ready + 8, m.status + 8, m.restart + 8, m.age + 8⟩

/-- padRight models one `%-<w>s` verb of the format string: left-justified,
padded with spaces to width w, never truncated. -/
def padRight (s : String) (w : Nat) : String :=
  s ++ String.mk (List.replicate (w - s.length) ' ')

/-- formatPodLine renders one line of the pod table with the format string
built by PrintPods. -/
def formatPodLine (ws : PodLens) (a b c d e : String) : String :=
  padRight a ws.name ++ padRight b ws.ready ++ padRight c ws.status
    ++ padRight d ws.restart ++ padRight e ws.age ++ "\n"

/-- OutStream models the io.Writer handed to the printers: `failAt` is the
stream's behaviour (whether its k-th write call fails), `calls` counts the
write calls made so far and `written` collects the successfully written
strings. -/
structure OutStream where
  failAt : Nat → Bool
  calls : Nat
  written : List String

/-- OutStream.fprintf models one fmt.Fprintf call on the writer: the call is
counted, the string is appended on success, and the returned Bool tells
whether the write failed. -/
def OutStream.fprintf (w : OutStream) (s : String) : OutStream × Bool :=
  if w.failAt w.calls then
    ({ w with calls := w.calls + 1 }, true)
  else
    ({ w with calls := w.calls + 1, written := w.written ++ [s] }, false)

/-- printPodsRows is the row loop of PrintPods: each row line is written
with Fprintf; on a write error the error is reported to standard output
(collected in the returned list) and the function returns, abandoning the
remaining rows. -/
def printPodsRows (ws : PodLens) :
    List PodInfo → OutStream → OutStream × List String
  | [], w => (w, [])
  | info :: rest, w =>
    match w.fprintf (formatPodLine ws info.Name info.ReadyContainers
        info.Status info.Restarts info.CreationTimestamp) with
    | (w1, true) => (w1, ["Failed to print Pod information."])
    | (w1, false) => printPodsRows ws rest w1

/-- PrintPods renders the pod table (pkg/cli/pod/list.go): derive one
PodInfo per pod, compute the column widths, write the header line (on error
report and return), then write the row lines. -/
def PrintPods (humanDuration : Nat → String) (now : Nat) (pods : List Pod)
    (w : OutStream) : OutStream × List String :=
  let infoList := pods.map (printPod humanDuration now)
  let ws := printPodsWidths infoList
  match w.fprintf (formatPodLine ws "Name" "Ready" "Status" "Restart" "Age") with
  | (w1, true) => (w1, ["Failed to print Pod information."])
  | (w1, false) => printPodsRows ws infoList w1

/-- ListPods models the tail of pkg/cli/pod/list.go ListPods after the list
call against the cluster: a fetch error is returned as the command error,
an empty item list prints the literal "No resources found" line to standard
output and returns success, and otherwise PrintPods renders the table to
the writer (os.Stdout).  The returned triple is the writer, the lines
printed to standard output via fmt.Printf, and the returned error. -/
def ListPods (humanDuration : Nat → String) (now : Nat)
    (fetch : Except String (List Pod)) (w : OutStream) :
    OutStream × List String × Option String :=
  match fetch with
  | .error e => (w, [], some e)
  | .ok pods =>
    if pods.length == 0 then
      (w, ["No resources found"], none)
    else
      let r := PrintPods humanDuration now pods w
      (r.1, r.2, none)

/-- JobFlowState mirrors the jobflow Status.State record (only the field
the CLI reads). -/
structure JobFlowState where
  Phase : String

/-- JobFlowStatus mirrors the jobflow Status record (only the field the CLI
reads). -/
structure JobFlowStatus where
  State : JobFlowState

/-- JobFlow mirrors flow/v1alpha1.JobFlow (only the fields the CLI reads),
with the metadata fields inlined as in the Go selectors jobFlow.Name,
jobFlow.Namespace, jobFlow.CreationTimestamp. -/
structure JobFlow where
  Name : String
  Namespace : String
  Status : JobFlowStatus
  CreationTimestamp : Nat

/-- JobFlowLens holds the four column lengths returned by
calculateMaxInfoLength. -/
structure JobFlowLens where
  name : Nat
  nspace : Nat
  phase : Nat
  age : Nat

/-- jobFlowMaxLensStep is the body of the calculateMaxInfoLength loop
updating the running per-column maxima with the cells of one jobflow row,
the age cell being the translated creation timestamp. -/
def jobFlowMaxLensStep (humanDuration : Nat → String) (now : Nat)
    (s : JobFlowLens) (jobFlow : JobFlow) : JobFlowLens :=
  let ageLen := translateTimestampSince humanDuration now
    jobFlow.CreationTimestamp
  { name := if jobFlow.Name.length > s.name then jobFlow.Name.length
      else s.name
    nspace :=
      if jobFlow.Namespace.length > s.nspace then jobFlow.Namespace.length
      else s.nspace
    phase :=
      if jobFlow.Status.State.Phase.length > s.phase then
        jobFlow.Status.State.Phase.length
      else s.phase
    age := if ageLen.length > s.age then ageLen.length else s.age }

/-- calculateMaxInfoLength calculates the maximum length of the Name,
Namespace, Phase and Age columns (pkg/cli/jobflow/list.go): the maxima
start from the header lengths and are raised by every row's cells. -/
def calculateMaxInfoLength (humanDuration : Nat → String) (now : Nat)
    (jobFlows : List JobFlow) : JobFlowLens :=
  jobFlows.foldl (jobFlowMaxLensStep humanDuration now)
    ⟨"Name".length, "Namespace".length, "Phase".length, "Age".length⟩

/-- printJobFlowsWidths computes the pad counts of the PrintJobFlows format
string: calculateMaxInfoLength plus the fixed columnSpacing of 4. -/
def printJobFlowsWidths (humanDuration : Nat → String) (now : Nat)
    (jobFlows : List JobFlow) : JobFlowLens :=
  let m := calculateMaxInfoLength humanDuration now jobFlows
  ⟨m.name + 4, m.nspace + 4, m.phase + 4, m.age + 4⟩

/-- formatJobFlowLine renders one line of the jobflow table with the format
string built by PrintJobFlows. -/
def formatJobFlowLine (ws : JobFlowLens) (a b c d : String) : String :=
  padRight a ws.name ++ padRight b ws.nspace ++ padRight c ws.phase
    ++ padRight d ws.age ++ "\n"

/-- printJobFlowsRows is the row loop of PrintJobFlows: each row line is
written with Fprintf; on a write error the error is reported to standard
output (collected in the returned list) and the loop continues with the
next row. -/
def printJobFlowsRows (humanDuration : Nat → String) (now : Nat)
    (ws : JobFlowLens) : List JobFlow → OutStream → OutStream × List String
  | [], w => (w, [])
  | jobFlow :: rest, w =>
    match w.fprintf (formatJobFlowLine ws jobFlow.Name jobFlow.Namespace
        jobFlow.Status.State.Phase
        (translateTimestampSince humanDuration now
          jobFlow.CreationTimestamp)) with
    | (w1, true) =>
      let r := printJobFlowsRows humanDuration now ws rest w1
      (r.1, "Failed to print JobFlow command result." :: r.2)
    | (w1, false) => printJobFlowsRows humanDuration now ws rest w1

/-- PrintJobFlows renders the jobflow table (pkg/cli/jobflow/list.go):
compute the column widths, write the header line (a write error is
reported but does not return), then write the row lines, each attempted
independently. -/
def PrintJobFlows (humanDuration : Nat → String) (now : Nat)
    (jobFlows : List JobFlow) (w : OutStream) : OutStream × List String :=
  let ws := printJobFlowsWidths humanDuration now jobFlows
  match w.fprintf (formatJobFlowLine ws "Name" "Namespace" "Phase" "Age") with
  | (w1, true) =>
    let r := printJobFlowsRows humanDuration now ws jobFlows w1
    (r.1, "Failed to print JobFlow command result." :: r.2)
  | (w1, false) => printJobFlowsRows humanDuration now ws jobFlows w1

/-- ListJobFlow models the tail of pkg/cli/jobflow/list.go ListJobFlow
after the list call against the cluster: a fetch error is returned as the
command error, an empty item list prints the literal "No resources found"
line and returns success, and otherwise PrintJobFlows renders the table. -/
def ListJobFlow (humanDuration : Nat → String) (now : Nat)
    (fetch : Except String (List JobFlow)) (w : OutStream) :
    OutStream × List String × Option String :=
  match fetch with
  | .error e => (w, [], some e)
  | .ok jobFlows =>
    if jobFlows.length == 0 then
      (w, ["No resources found"], none)
    else
      let r := PrintJobFlows humanDuration now jobFlows w
      (r.1, r.2, none)

/-- Operator models k8s.io/apimachinery/pkg/selection.Operator restricted
to the two operators the CLI uses. -/
inductive Operator where
  | In : Operator
  | Exists : Operator
  deriving DecidableEq

/-- Requirement models k8s.io/apimachinery/pkg/labels.Requirement: a key,
an operator and the value list. -/
structure Requirement where
  key : String
  operator : Operator
  strValues : List String
  deriving DecidableEq

/-- isAlphaNumChar is the character class [A-Za-z0-9] of the k8s qualified
name and label value formats. -/
def isAlphaNumChar (c : Char) : Bool :=
  (Char.ofNat 65 ≤ c && c ≤ Char.ofNat 90)
    || (Char.ofNat 97 ≤ c && c ≤ Char.ofNat 122)
    || (Char.ofNat 48 ≤ c && c ≤ Char.ofNat 57)

/-- isExtLabelChar is the character class [-A-Za-z0-9_.] allowed in the
middle of a qualified name part or a label value. -/
def isExtLabelChar (c : Char) : Bool :=
  isAlphaNumChar c || c == Char.ofNat 45 || c == Char.ofNat 95
    || c == Char.ofNat 46

/-- isLowerAlphaNumChar is the character class [a-z0-9] of the DNS-1123
formats. -/
def isLowerAlphaNumChar (c : Char) : Bool :=
  (Char.ofNat 97 ≤ c && c ≤ Char.ofNat 122)
    || (Char.ofNat 48 ≤ c && c ≤ Char.ofNat 57)

/-- lastIs checks the final character of a character list against a
predicate; an empty list passes (the single-character case of the k8s
regular expressions). -/
def lastIs (p : Char → Bool) (cs : List Char) : Bool :=
  match cs.getLast? with
  | none => true
  | some c => p c

/-- splitOnChar splits a character list at every occurrence of the
separator, mirroring strings.Split with a one-character separator. -/
def splitOnChar (sep : Char) : List Char → List (List Char)
  | [] => [[]]
  | c :: cs =>
    if c == sep then [] :: splitOnChar sep cs
    else
      match splitOnChar sep cs with
      | [] => [[c]]
      | g :: gs => (c :: g) :: gs

/-- isValidLabelValue models
k8s.io/apimachinery/pkg/util/validation.IsValidLabelValue: at most 63
characters, empty or alphanumeric at both ends with [-A-Za-z0-9_.] in
between. -/
def isValidLabelValue (v : String) : Bool :=
  let cs := v.toList
  decide (cs.length ≤ 63)
    && (match cs with
      | [] => true
      | c :: rest =>
        isAlphaNumChar c && lastIs isAlphaNumChar rest
          && cs.all isExtLabelChar)

/-- isQualifiedNamePart models the name part of
k8s.io/apimachinery/pkg/util/validation.IsQualifiedName: non-empty, at most
63 characters, alphanumeric at both ends with [-A-Za-z0-9_.] in between. -/
def isQualifiedNamePart (cs : List Char) : Bool :=
  match cs with
  | [] => false
  | c :: rest =>
    decide (cs.length ≤ 63) && isAlphaNumChar c && lastIs isAlphaNumChar rest
      && cs.all isExtLabelChar

/-- isDNS1123Label models one dot-separated label of a DNS-1123 subdomain:
non-empty, at most 63 characters, lowercase alphanumeric at both ends with
[-a-z0-9] in between. -/
def isDNS1123Label (cs : List Char) : Bool :=
  match cs with
  | [] => false
  | c :: rest =>
    decide (cs.length ≤ 63) && isLowerAlphaNumChar c
      && lastIs isLowerAlphaNumChar rest
      && cs.all (fun ch => isLowerAlphaNumChar ch || ch == Char.ofNat 45)

/-- isDNS1123Subdomain models
k8s.io/apimachinery/pkg/util/validation.IsDNS1123Subdomain: at most 253
characters, dot-separated DNS-1123 labels. -/
def isDNS1123Subdomain (cs : List Char) : Bool :=
  decide (cs.length ≤ 253)
    && (splitOnChar (Char.ofNat 46) cs).all isDNS1123Label

/-- isQualifiedName models
k8s.io/apimachinery/pkg/util/validation.IsQualifiedName: an optional
DNS-1123 subdomain prefix separated by a slash from a qualified name
part. -/
def isQualifiedName (s : String) : Bool :=
  match splitOnChar (Char.ofNat 47) s.toList with
  | [name] => isQualifiedNamePart name
  | [pre, name] =>
    !pre.isEmpty && isDNS1123Subdomain pre && isQualifiedNamePart name
  | _ => false

/-- NewRequirement models k8s.io/apimachinery/pkg/labels.NewRequirement for
the two operators the CLI uses: the key must be a qualified name, In needs
a non-empty value set, Exists an empty one, and every value must be a valid
label value. -/
def NewRequirement (key : String) (op : Operator) (vals : List String) :
    Except String Requirement :=
  if !isQualifiedName key then
    .error "invalid label key"
  else if op = Operator.In && vals.length == 0 then
    .error "for in operator, values set can not be empty"
  else if op = Operator.Exists && vals.length > 0 then
    .error "values set must be empty for exists operator"
  else if !vals.all isValidLabelValue then
    .error "invalid label value"
  else
    .ok ⟨key, op, vals⟩

/-- charListLt is byte-wise lexicographic string comparison, the Go `<` on
strings used by the ByKey sort comparator in the labels package. -/
def charListLt : List Char → List Char → Bool
  | _, [] => false
  | [], _ :: _ => true
  | a :: as, b :: bs =>
    if a < b then true else if b < a then false else charListLt as bs

/-- stringLtGo compares two strings as Go does (lexicographically). -/
def stringLtGo (a b : String) : Bool := charListLt a.toList b.toList

/-- insertByKey inserts a requirement into a list ordered by key,
preserving the order produced by the sort in labels.Selector.Add. -/
def insertByKey (r : Requirement) : List Requirement → List Requirement
  | [] => [r]
  | x :: xs =>
    if stringLtGo r.key x.key then r :: x :: xs else x :: insertByKey r xs

/-- sortByKey models the by-key sort performed by labels.Selector.Add on
the collected requirements. -/
def sortByKey : List Requirement → List Requirement
  | [] => []
  | x :: xs => insertByKey x (sortByKey xs)

/-- selectorAdd models labels.Selector.Add: append the new requirements and
sort the selector by key. -/
def selectorAdd (s : List Requirement) (reqs : List Requirement) :
    List Requirement :=
  sortByKey (s ++ reqs)

/-- createLabelSelector creates a label selector based on the provided job
name or queue name (pkg/cli/pod/list.go): an In requirement on the
volcano.sh/job-name label when jobName is non-empty, an In requirement on
the volcano.sh/queue-name label when queueName is non-empty, and when
neither is given a single Exists requirement on the job-name label; any
NewRequirement error is returned unchanged. -/
def createLabelSelector (jobName queueName : String) :
    Except String (List Requirement) :=
  let step1 : Except String (List Requirement) :=
    if jobName != "" then
      match NewRequirement "volcano.sh/job-name" Operator.In [jobName] with
      | .error e => .error e
      | .ok r => .ok [r]
    else .ok []
  match step1 with
  | .error e => .error e
  | .ok reqs1 =>
    let step2 : Except String (List Requirement) :=
      if queueName != "" then
        match NewRequirement "volcano.sh/queue-name" Operator.In
            [queueName] with
        | .error e => .error e
        | .ok r => .ok (reqs1 ++ [r])
      else .ok reqs1
    match step2 with
    | .error e => .error e
    | .ok reqs =>
      if reqs.length > 0 then
        .ok (selectorAdd [] reqs)
      else
        match NewRequirement "volcano.sh/job-name" Operator.Exists [] with
        | .error e => .error e
        | .ok r => .ok (selectorAdd [] [r])

/-- humanDur0 is a concrete stand-in for duration.HumanDuration used in the
closed evaluations below (seconds rendering). -/
def humanDur0 : Nat → String := fun n => toString n ++ "s"

/-- emptyContainerState is the all-nil corev1.ContainerState. -/
def emptyContainerState : ContainerState := ⟨none, none, none⟩

/-- c1status is a single init container status that is waiting with the
placeholder reason "PodInitializing" and has no terminated state. -/
def c1status : ContainerStatus :=
  { Name := "init"
    Ready := false
    RestartCount := 0
    State := ⟨some ⟨"PodInitializing"⟩, none, none⟩
    LastTerminationState := emptyContainerState
    Started := none }

/-- c1pod is a pod whose single (non-restartable) init container is waiting
with reason "PodInitializing" while its one regular container is ready and
running. -/
def c1pod : Pod :=
  { Name := "my-pod"
    Namespace := "default"
    CreationTimestamp := 5
    DeletionTimestamp := none
    Spec := ⟨[⟨"main", none⟩], [⟨"init", none⟩]⟩
    Status :=
      ⟨"Pending", "", [], [c1status],
        [⟨"main", true, 0, ⟨none, some (), none⟩, emptyContainerState,
          some true⟩]⟩ }

/-- c7pod mirrors the test fixture: one declared regular container, no init
containers, no container statuses, phase Running with a true Ready
condition. -/
def c7pod : Pod :=
  { Name := "my-pod"
    Namespace := "default"
    CreationTimestamp := 5
    DeletionTimestamp := none
    Spec := ⟨[⟨"my-container", none⟩], []⟩
    Status := ⟨"Running", "", [⟨"Ready", "True", ""⟩], [], []⟩ }

/-- podScanState ignores the deletion timestamp: only the final reason
adjustment in printPod reads it. -/
theorem podScanState_erase_deletion (pod : Pod) :
    podScanState { pod with DeletionTimestamp := none } = podScanState pod :=
  rfl

/-- Claim C5: for every fetch whose result set is empty, ListPods and
ListJobFlow print exactly the line "No resources found", write no table
line to the output stream, and return success (no error). -/
theorem C5_emptyResult (humanDuration : Nat → String) (now : Nat)
    (w : OutStream) :
    ListPods humanDuration now (Except.ok []) w
        = (w, ["No resources found"], none)
      ∧ ListJobFlow humanDuration now (Except.ok []) w
        = (w, ["No resources found"], none) :=
  ⟨rfl, rfl⟩

/-- Claim C4: the Restarts cell of printPod is the plain decimal restart
count, and carries the "(… ago)" suffix exactly when the accumulated
restart count is positive and a last restart (termination) timestamp is
known; a restart count of 0 always renders as plain "0". -/
theorem C4_restartDisplay (humanDuration : Nat → String) (now : Nat)
    (pod : Pod) :
    ((podScanState pod).restarts = 0
        → (printPod humanDuration now pod).Restarts = "0")
      ∧ ((podScanState pod).restarts ≠ 0
          → (podScanState pod).lastRestartDate ≠ 0
          → (printPod humanDuration now pod).Restarts =
            toString (podScanState pod).restarts ++ " ("
              ++ humanDuration (now - (podScanState pod).lastRestartDate)
              ++ " ago)")
      ∧ ((podScanState pod).lastRestartDate = 0
          → (printPod humanDuration now pod).Restarts =
            toString (podScanState pod).restarts) := by
  refine ⟨fun h0 => ?_, fun hn hd => ?_, fun hd => ?_⟩
  · simp [printPod, h0]
    rfl
  · simp [printPod, hn, hd, translateTimestampSince]
  · simp [printPod, hd]

/-- Claim C6: for every pod with a deletion timestamp, the final status of
printPod is "Unknown" when the pod's status reason is "NodeLost", otherwise
"Terminating" unless the phase is terminal (Succeeded or Failed), in which
case the reason derived before the deletion adjustment is kept. -/
theorem C6_deletionTimestamp (humanDuration : Nat → String) (now : Nat)
    (pod : Pod) (h : pod.DeletionTimestamp.isSome = true) :
    (printPod humanDuration now pod).Status =
      (if pod.Status.Reason == "NodeLost" then "Unknown"
       else if !isPodPhaseTerminal pod.Status.Phase then "Terminating"
       else (printPod humanDuration now
          { pod with DeletionTimestamp := none }).Status) := by
  by_cases h1 : pod.Status.Reason == "NodeLost"
    <;> by_cases h2 : isPodPhaseTerminal pod.Status.Phase
    <;> simp [printPod, podScanState_erase_deletion, h, h1, h2]

/-- Claim C8: when the regular-container scan derives the reason
"Completed" while some regular container is ready and running, printPod
upgrades the status to "Running" if the pod has a true Ready condition and
to "NotReady" otherwise (stated for pods without a pending deletion, which
would overwrite the upgraded reason). -/
theorem C8_completedUpgrade (humanDuration : Nat → String) (now : Nat)
    (pod : Pod) (hdel : pod.DeletionTimestamp = none)
    (hran : (!(initScanResult pod).initializing
        || isPodInitializedConditionTrue pod.Status.Conditions) = true)
    (hreason : (regScanResult pod).reason = "Completed")
    (hrun : (regScanResult pod).hasRunning = true) :
    (printPod humanDuration now pod).Status =
      (if hasPodReadyCondition pod.Status.Conditions then "Running"
       else "NotReady") := by
  simp [printPod, podScanState, hdel, hran, hreason, hrun]

/-- foldlCountIf evaluates the counting fold used by printPod for
totalContainers: a fold incrementing on a predicate equals the start value
plus the length of the filtered list. -/
theorem foldlCountIf (p : Container → Bool) :
    ∀ (l : List Container) (init : Nat),
      l.foldl (fun t c => if p c then t + 1 else t) init
        = init + (l.filter p).length := by
  intro l
  induction l with
  | nil => intro init; simp
  | cons c rest ih =>
    intro init
    by_cases hc : p c <;> simp [hc, ih, List.filter_cons] <;> omega

/-- Claim C7: the denominator of the ReadyContainers cell of printPod is
the number of declared regular containers plus the number of declared init
containers whose restart policy is "Always"; in particular the test pod
with one declared container and nothing ready renders "0/1". -/
theorem C7_totalContainers (humanDuration : Nat → String) (now : Nat)
    (pod : Pod) :
    (printPod humanDuration now pod).ReadyContainers =
        toString (podScanState pod).readyContainers ++ "/"
          ++ toString (pod.Spec.Containers.length
            + (pod.Spec.InitContainers.filter
                (fun c => isRestartableInitContainer (some c))).length)
      ∧ (printPod humanDuration now c7pod).ReadyContainers = "0/1" := by
  constructor
  · simp [printPod, foldlCountIf]
  · rfl

/-- Claim C1 counterexample: on a pod whose single init container status is
waiting with reason exactly "PodInitializing" (and no terminated state),
printPod does set the status to an "Init:…" string — the default branch of
the init switch marks the pod initializing as "Init:0/1" — instead of
falling through to the regular-container classification (which would leave
the phase "Pending" here). -/
theorem C1_counterexample :
    (printPod humanDur0 0 c1pod).Status = "Init:0/1"
      ∧ (printPod humanDur0 0 c1pod).Status ≠ "Pending" := by
  constructor
  · rfl
  · decide

/-- Claim C1 (amended): a pod whose single init container status is waiting
with reason exactly "PodInitializing" (no terminated state) IS marked
initializing, with status reason "Init:0/<number of declared init
containers>" from the default branch — the placeholder waiting reason only
suppresses the "Init:<reason>" detail form — provided the container is not
a started restartable init container, the PodInitialized condition is not
true (either of which would let the regular scan run), and no deletion is
pending (which would overwrite the reason). -/
theorem C1_amended (humanDuration : Nat → String) (now : Nat) (pod : Pod)
    (c : ContainerStatus)
    (hstat : pod.Status.InitContainerStatuses = [c])
    (hwait : c.State.Waiting = some ⟨"PodInitializing"⟩)
    (hterm : c.State.Terminated = none)
    (hrest : (isRestartableInitContainer
        (lookupInit pod.Spec.InitContainers c.Name) && startedTrue c) = false)
    (hinit : isPodInitializedConditionTrue pod.Status.Conditions = false)
    (hdel : pod.DeletionTimestamp = none) :
    (printPod humanDuration now pod).Status =
      "Init:0/" ++ toString pod.Spec.InitContainers.length := by
  simp [printPod, podScanState, initScanResult, initScanLoop, hstat, hwait,
    hterm, hrest, hinit, hdel]
  rfl

/-- Claim C1 amended, witness: the amended statement evaluated on the
concrete pod c1pod. -/
theorem C1_amended_witness :
    (printPod humanDur0 0 c1pod).Status =
      "Init:0/" ++ toString c1pod.Spec.InitContainers.length :=
  C1_amended humanDur0 0 c1pod c1status rfl rfl rfl (by decide) rfl rfl

/-- Claim C4 witness: on the concrete pod c7pod the accumulated restart
count is 0 and the Restarts cell is the plain "0". -/
theorem C4_restartDisplay_witness :
    (podScanState c7pod).restarts = 0
      ∧ (printPod humanDur0 0 c7pod).Restarts = "0" :=
  ⟨rfl, (C4_restartDisplay humanDur0 0 c7pod).1 rfl⟩

/-- c6pod is c1pod with a pending deletion and status reason NodeLost. -/
def c6pod : Pod :=
  { c1pod with
    DeletionTimestamp := some 7
    Status := { c1pod.Status with Reason := "NodeLost" } }

/-- Claim C6 witness: on the concrete pod c6pod (deletion pending, status
reason "NodeLost") printPod reports "Unknown". -/
theorem C6_deletionTimestamp_witness :
    (printPod humanDur0 0 c6pod).Status = "Unknown" := by
  have h := C6_deletionTimestamp humanDur0 0 c6pod rfl
  simpa using h

/-- c8pod is a pod whose regular-container scan derives "Completed" from
its first container while its second container is ready and running, with a
true Ready condition. -/
def c8pod : Pod :=
  { Name := "my-pod"
    Namespace := "default"
    CreationTimestamp := 5
    DeletionTimestamp := none
    Spec := ⟨[⟨"a", none⟩, ⟨"b", none⟩], []⟩
    Status :=
      ⟨"Running", "", [⟨"Ready", "True", ""⟩], [],
        [⟨"a", false, 0, ⟨none, none, some ⟨0, 0, "Completed", 0⟩⟩,
          emptyContainerState, some true⟩,
        ⟨"b", true, 0, ⟨none, some (), none⟩, emptyContainerState,
          some true⟩]⟩ }

/-- Claim C8 witness: on the concrete pod c8pod the scan reason is
"Completed" with a running ready container, and printPod upgrades the
status to "Running". -/
theorem C8_completedUpgrade_witness :
    (regScanResult c8pod).reason = "Completed"
      ∧ (regScanResult c8pod).hasRunning = true
      ∧ (printPod humanDur0 0 c8pod).Status = "Running" := by
  refine ⟨rfl, rfl, ?_⟩
  have h := C8_completedUpgrade humanDur0 0 c8pod rfl rfl rfl rfl
  simpa using h

/-- podMaxLensStep never lowers a running maximum. -/
theorem podMaxLensStep_ge_state (s : PodLens) (i : PodInfo) :
    s.name ≤ (podMaxLensStep s i).name
      ∧ s.ready ≤ (podMaxLensStep s i).ready
      ∧ s.status ≤ (podMaxLensStep s i).status
      ∧ s.restart ≤ (podMaxLensStep s i).restart
      ∧ s.age ≤ (podMaxLensStep s i).age := by
  refine ⟨?_, ?_, ?_, ?_, ?_⟩ <;> simp only [podMaxLensStep] <;> split <;>
    omega

/-- podMaxLensStep raises each running maximum to at least the processed
row's cell length. -/
theorem podMaxLensStep_ge_info (s : PodLens) (i : PodInfo) :
    i.Name.length ≤ (podMaxLensStep s i).name
      ∧ i.ReadyContainers.length ≤ (podMaxLensStep s i).ready
      ∧ i.Status.length ≤ (podMaxLensStep s i).status
      ∧ i.Restarts.length ≤ (podMaxLensStep s i).restart
      ∧ i.CreationTimestamp.length ≤ (podMaxLensStep s i).age := by
  refine ⟨?_, ?_, ?_, ?_, ?_⟩ <;> simp only [podMaxLensStep] <;> split <;>
    omega

/-- The PrintPods maximum fold never lowers the starting maxima. -/
theorem podMaxLens_foldl_ge_state :
    ∀ (infos : List PodInfo) (s : PodLens),
      s.name ≤ (infos.foldl podMaxLensStep s).name
        ∧ s.ready ≤ (infos.foldl podMaxLensStep s).ready
        ∧ s.status ≤ (infos.foldl podMaxLensStep s).status
        ∧ s.restart ≤ (infos.foldl podMaxLensStep s).restart
        ∧ s.age ≤ (infos.foldl podMaxLensStep s).age := by
  intro infos
  induction infos with
  | nil => intro s; simp
  | cons i rest ih =>
    intro s
    obtain ⟨a1, a2, a3, a4, a5⟩ := podMaxLensStep_ge_state s i
    obtain ⟨b1, b2, b3, b4, b5⟩ := ih (podMaxLensStep s i)
    exact ⟨a1.trans b1, a2.trans b2, a3.trans b3, a4.trans b4, a5.trans b5⟩

/-- The PrintPods maximum fold dominates every processed row's cells. -/
theorem podMaxLens_foldl_ge_mem :
    ∀ (infos : List PodInfo) (s : PodLens) (i : PodInfo), i ∈ infos →
      i.Name.length ≤ (infos.foldl podMaxLensStep s).name
        ∧ i.ReadyContainers.length ≤ (infos.foldl podMaxLensStep s).ready
        ∧ i.Status.length ≤ (infos.foldl podMaxLensStep s).status
        ∧ i.Restarts.length ≤ (infos.foldl podMaxLensStep s).restart
        ∧ i.CreationTimestamp.length ≤ (infos.foldl podMaxLensStep s).age := by
  intro infos
  induction infos with
  | nil => intro s i hi; cases hi
  | cons j rest ih =>
    intro s i hi
    rcases List.mem_cons.mp hi with hij | hir
    · subst hij
      obtain ⟨a1, a2, a3, a4, a5⟩ := podMaxLensStep_ge_info s i
      obtain ⟨b1, b2, b3, b4, b5⟩ :=
        podMaxLens_foldl_ge_state rest (podMaxLensStep s i)
      exact ⟨a1.trans b1, a2.trans b2, a3.trans b3, a4.trans b4, a5.trans b5⟩
    · exact ih (podMaxLensStep s j) i hir

/-- jobFlowMaxLensStep never lowers a running maximum. -/
theorem jobFlowMaxLensStep_ge_state (humanDuration : Nat → String)
    (now : Nat) (s : JobFlowLens) (f : JobFlow) :
    s.name ≤ (jobFlowMaxLensStep humanDuration now s f).name
      ∧ s.nspace ≤ (jobFlowMaxLensStep humanDuration now s f).nspace
      ∧ s.phase ≤ (jobFlowMaxLensStep humanDuration now s f).phase
      ∧ s.age ≤ (jobFlowMaxLensStep humanDuration now s f).age := by
  refine ⟨?_, ?_, ?_, ?_⟩ <;> simp only [jobFlowMaxLensStep] <;> split <;>
    omega

/-- jobFlowMaxLensStep raises each running maximum to at least the
processed row's cell length. -/
theorem jobFlowMaxLensStep_ge_row (humanDuration : Nat → String)
    (now : Nat) (s : JobFlowLens) (f : JobFlow) :
    f.Name.length ≤ (jobFlowMaxLensStep humanDuration now s f).name
      ∧ f.Namespace.length ≤ (jobFlowMaxLensStep humanDuration now s f).nspace
      ∧ f.Status.State.Phase.length
        ≤ (jobFlowMaxLensStep humanDuration now s f).phase
      ∧ (translateTimestampSince humanDuration now f.CreationTimestamp).length
        ≤ (jobFlowMaxLensStep humanDuration now s f).age := by
  refine ⟨?_, ?_, ?_, ?_⟩ <;> simp only [jobFlowMaxLensStep] <;> split <;>
    omega

/-- The calculateMaxInfoLength fold never lowers the starting maxima. -/
theorem jobFlowMaxLens_foldl_ge_state (humanDuration : Nat → String)
    (now : Nat) :
    ∀ (flows : List JobFlow) (s : JobFlowLens),
      s.name ≤ (flows.foldl (jobFlowMaxLensStep humanDuration now) s).name
        ∧ s.nspace
          ≤ (flows.foldl (jobFlowMaxLensStep humanDuration now) s).nspace
        ∧ s.phase
          ≤ (flows.foldl (jobFlowMaxLensStep humanDuration now) s).phase
        ∧ s.age
          ≤ (flows.foldl (jobFlowMaxLensStep humanDuration now) s).age := by
  intro flows
  induction flows with
  | nil => intro s; simp
  | cons f rest ih =>
    intro s
    obtain ⟨a1, a2, a3, a4⟩ :=
      jobFlowMaxLensStep_ge_state humanDuration now s f
    obtain ⟨b1, b2, b3, b4⟩ := ih (jobFlowMaxLensStep humanDuration now s f)
    exact ⟨a1.trans b1, a2.trans b2, a3.trans b3, a4.trans b4⟩

/-- The calculateMaxInfoLength fold dominates every processed row's
cells. -/
theorem jobFlowMaxLens_foldl_ge_mem (humanDuration : Nat → String)
    (now : Nat) :
    ∀ (flows : List JobFlow) (s : JobFlowLens) (f : JobFlow), f ∈ flows →
      f.Name.length
          ≤ (flows.foldl (jobFlowMaxLensStep humanDuration now) s).name
        ∧ f.Namespace.length
          ≤ (flows.foldl (jobFlowMaxLensStep humanDuration now) s).nspace
        ∧ f.Status.State.Phase.length
          ≤ (flows.foldl (jobFlowMaxLensStep humanDuration now) s).phase
        ∧ (translateTimestampSince humanDuration now
            f.CreationTimestamp).length
          ≤ (flows.foldl (jobFlowMaxLensStep humanDuration now) s).age := by
  intro flows
  induction flows with
  | nil => intro s f hf; cases hf
  | cons g rest ih =>
    intro s f hf
    rcases List.mem_cons.mp hf with hfg | hfr
    · subst hfg
      obtain ⟨a1, a2, a3, a4⟩ :=
        jobFlowMaxLensStep_ge_row humanDuration now s f
      obtain ⟨b1, b2, b3, b4⟩ := jobFlowMaxLens_foldl_ge_state humanDuration
        now rest (jobFlowMaxLensStep humanDuration now s f)
      exact ⟨a1.trans b1, a2.trans b2, a3.trans b3, a4.trans b4⟩
    · exact ih (jobFlowMaxLensStep humanDuration now s g) f hfr

/-- Claim C2: in both table printers the rendered width of every column
(the pad count of the format string, after the fixed column spacing is
added) is at least the length of the column's header text and at least the
length of every cell appearing in that column. -/
theorem C2_columnWidths (humanDuration : Nat → String) (now : Nat)
    (infos : List PodInfo) (flows : List JobFlow) :
    ("Name".length ≤ (printPodsWidths infos).name
        ∧ "Ready".length ≤ (printPodsWidths infos).ready
        ∧ "Status".length ≤ (printPodsWidths infos).status
        ∧ "Restart".length ≤ (printPodsWidths infos).restart
        ∧ "Age".length ≤ (printPodsWidths infos).age)
      ∧ (∀ info ∈ infos,
          info.Name.length ≤ (printPodsWidths infos).name
            ∧ info.ReadyContainers.length ≤ (printPodsWidths infos).ready
            ∧ info.Status.length ≤ (printPodsWidths infos).status
            ∧ info.Restarts.length ≤ (printPodsWidths infos).restart
            ∧ info.CreationTimestamp.length ≤ (printPodsWidths infos).age)
      ∧ ("Name".length ≤ (printJobFlowsWidths humanDuration now flows).name
        ∧ "Namespace".length
          ≤ (printJobFlowsWidths humanDuration now flows).nspace
        ∧ "Phase".length ≤ (printJobFlowsWidths humanDuration now flows).phase
        ∧ "Age".length ≤ (printJobFlowsWidths humanDuration now flows).age)
      ∧ (∀ f ∈ flows,
          f.Name.length ≤ (printJobFlowsWidths humanDuration now flows).name
            ∧ f.Namespace.length
              ≤ (printJobFlowsWidths humanDuration now flows).nspace
            ∧ f.Status.State.Phase.length
              ≤ (printJobFlowsWidths humanDuration now flows).phase
            ∧ (translateTimestampSince humanDuration now
                f.CreationTimestamp).length
              ≤ (printJobFlowsWidths humanDuration now flows).age) := by
  have hname : "Name".length = 4 := rfl
  have hready : "Ready".length = 5 := rfl
  have hstatus : "Status".length = 6 := rfl
  have hrestart : "Restart".length = 7 := rfl
  have hage : "Age".length = 3 := rfl
  have hnspace : "Namespace".length = 9 := rfl
  have hphase : "Phase".length = 5 := rfl
  refine ⟨?_, ?_, ?_, ?_⟩
  · simp only [printPodsWidths, hname, hready, hstatus, hrestart, hage]
    omega
  · intro info hinfo
    obtain ⟨a1, a2, a3, a4, a5⟩ :=
      podMaxLens_foldl_ge_mem infos ⟨0, 0, 0, 0, 0⟩ info hinfo
    simp only [printPodsWidths]
    omega
  · obtain ⟨a1, a2, a3, a4⟩ := jobFlowMaxLens_foldl_ge_state humanDuration
      now flows ⟨"Name".length, "Namespace".length, "Phase".length,
        "Age".length⟩
    simp only [printJobFlowsWidths, calculateMaxInfoLength]
    simp only [hname, hnspace, hphase, hage] at a1 a2 a3 a4 ⊢
    omega
  · intro f hf
    obtain ⟨a1, a2, a3, a4⟩ := jobFlowMaxLens_foldl_ge_mem humanDuration now
      flows ⟨"Name".length, "Namespace".length, "Phase".length,
        "Age".length⟩ f hf
    simp only [printJobFlowsWidths, calculateMaxInfoLength] at a1 a2 a3 a4 ⊢
    omega

/-- pInfo0 is a concrete display row. -/
def pInfo0 : PodInfo := ⟨"my-pod", "0/1", "Running", "0", "5s"⟩

/-- jf0 is a concrete jobflow row. -/
def jf0 : JobFlow := ⟨"my-flow", "default", ⟨⟨"Succeed"⟩⟩, 5⟩

/-- Claim C2 witness: the width bound evaluated on concrete one-row
tables. -/
theorem C2_columnWidths_witness :
    (pInfo0.Name.length ≤ (printPodsWidths [pInfo0]).name
        ∧ pInfo0.ReadyContainers.length ≤ (printPodsWidths [pInfo0]).ready
        ∧ pInfo0.Status.length ≤ (printPodsWidths [pInfo0]).status
        ∧ pInfo0.Restarts.length ≤ (printPodsWidths [pInfo0]).restart
        ∧ pInfo0.CreationTimestamp.length ≤ (printPodsWidths [pInfo0]).age)
      ∧ (jf0.Name.length ≤ (printJobFlowsWidths humanDur0 0 [jf0]).name
        ∧ jf0.Namespace.length ≤ (printJobFlowsWidths humanDur0 0 [jf0]).nspace
        ∧ jf0.Status.State.Phase.length
          ≤ (printJobFlowsWidths humanDur0 0 [jf0]).phase
        ∧ (translateTimestampSince humanDur0 0 jf0.CreationTimestamp).length
          ≤ (printJobFlowsWidths humanDur0 0 [jf0]).age) :=
  ⟨(C2_columnWidths humanDur0 0 [pInfo0] [jf0]).2.1 pInfo0 (by simp),
   (C2_columnWidths humanDur0 0 [pInfo0] [jf0]).2.2.2 jf0 (by simp)⟩

/-- rowsAttempted states, following the amended claim, how many row writes
a printer that stops at the first failed write performs: rows are attempted
while the writes at the successive call indices succeed, including the
first failing one. -/
def rowsAttempted (failAt : Nat → Bool) : Nat → Nat → Nat
  | _, 0 => 0
  | k, n + 1 => if failAt k then 1 else 1 + rowsAttempted failAt (k + 1) n

/-- The PrintPods row loop attempts rows only up to and including the first
failing write. -/
theorem printPodsRows_calls (ws : PodLens) :
    ∀ (infos : List PodInfo) (w : OutStream),
      ((printPodsRows ws infos w).1).calls
        = w.calls + rowsAttempted w.failAt w.calls infos.length := by
  intro infos
  induction infos with
  | nil => intro w; simp [printPodsRows, rowsAttempted]
  | cons info rest ih =>
    intro w
    by_cases hfail : w.failAt w.calls
    · simp [printPodsRows, OutStream.fprintf, hfail, rowsAttempted]
    · simp [printPodsRows, OutStream.fprintf, hfail, rowsAttempted, ih]
      omega

/-- The PrintJobFlows row loop attempts every row write. -/
theorem printJobFlowsRows_calls (humanDuration : Nat → String) (now : Nat)
    (ws : JobFlowLens) :
    ∀ (flows : List JobFlow) (w : OutStream),
      ((printJobFlowsRows humanDuration now ws flows w).1).calls
        = w.calls + flows.length := by
  intro flows
  induction flows with
  | nil => intro w; simp [printJobFlowsRows]
  | cons f rest ih =>
    intro w
    by_cases hfail : w.failAt w.calls
    · simp [printJobFlowsRows, OutStream.fprintf, hfail, ih]
      omega
    · simp [printJobFlowsRows, OutStream.fprintf, hfail, ih]
      omega

/-- Claim C3 (amended): PrintJobFlows attempts the header write and every
row write independently of earlier failures, while PrintPods stops at the
first failed write: it attempts one write when the header write fails, and
otherwise the header write plus row writes up to and including the first
failing one. -/
theorem C3_amended :
    (∀ (humanDuration : Nat → String) (now : Nat) (flows : List JobFlow)
        (w : OutStream),
      ((PrintJobFlows humanDuration now flows w).1).calls
        = w.calls + 1 + flows.length)
      ∧ (∀ (humanDuration : Nat → String) (now : Nat) (pods : List Pod)
          (w : OutStream),
        ((PrintPods humanDuration now pods w).1).calls
          = w.calls + (if w.failAt w.calls then 1
            else 1 + rowsAttempted w.failAt (w.calls + 1) pods.length)) := by
  constructor
  · intro humanDuration now flows w
    by_cases hfail : w.failAt w.calls
    · simp [PrintJobFlows, OutStream.fprintf, hfail, printJobFlowsRows_calls]
    · simp [PrintJobFlows, OutStream.fprintf, hfail, printJobFlowsRows_calls]
  · intro humanDuration now pods w
    by_cases hfail : w.failAt w.calls
    · simp [PrintPods, OutStream.fprintf, hfail]
    · simp [PrintPods, OutStream.fprintf, hfail, printPodsRows_calls]
      omega

/-- failSecondStream is an output stream whose second write call (the first
row line, after a successful header write) fails. -/
def failSecondStream : OutStream := ⟨fun k => k == 1, 0, []⟩

/-- Claim C3 counterexample: on a two-row pod table whose first row write
fails, PrintPods makes only 2 write calls — the header and the failing
first row — and never attempts the remaining row, although the claim
demands all 3 line writes be attempted. -/
theorem C3_counterexample :
    ((PrintPods humanDur0 0 [c7pod, c7pod] failSecondStream).1).calls = 2
      ∧ [c7pod, c7pod].length + 1 = 3 ∧ 2 < 3 := by
  refine ⟨?_, by simp, by omega⟩
  rfl

/-- Claim C9 counterexample: for the flag pair ("a b", ""), whose job name
is not a valid Kubernetes label value (it contains a space), the label
requirement construction fails, so createLabelSelector returns an error and
no selector at all — not a selector requiring job-name equality as the
claim states for every pair with a non-empty job name. -/
theorem C9_counterexample :
    createLabelSelector "a b" "" = Except.error "invalid label value" := by
  rfl

/-- Claim C9 (amended): for every pair of flag values whose non-empty
entries are valid Kubernetes label values, createLabelSelector returns
exactly the described selector: job-name In-equality when jobName is
non-empty, queue-name In-equality when queueName is non-empty, both (and
nothing else) when both are non-empty, and a bare job-name Exists
requirement when both are empty; non-empty values failing label-value
validation instead yield an error and no selector. -/
theorem C9_amended (j q : String)
    (hj : j ≠ "" → isValidLabelValue j = true)
    (hq : q ≠ "" → isValidLabelValue q = true) :
    createLabelSelector j q =
      Except.ok
        (if j = "" ∧ q = "" then
          [⟨"volcano.sh/job-name", Operator.Exists, []⟩]
        else
          (if j = "" then [] else
            [⟨"volcano.sh/job-name", Operator.In, [j]⟩])
            ++ (if q = "" then [] else
              [⟨"volcano.sh/queue-name", Operator.In, [q]⟩])) := by
  have hk1 : isQualifiedName "volcano.sh/job-name" = true := by decide
  have hk2 : isQualifiedName "volcano.sh/queue-name" = true := by decide
  have hlt : stringLtGo "volcano.sh/job-name" "volcano.sh/queue-name"
      = true := by decide
  by_cases hj0 : j = ""
  · by_cases hq0 : q = ""
    · simp [createLabelSelector, NewRequirement, selectorAdd, sortByKey,
        insertByKey, hj0, hq0, hk1]
    · have hvq : isValidLabelValue q = true := hq hq0
      simp [createLabelSelector, NewRequirement, selectorAdd, sortByKey,
        insertByKey, hj0, hq0, hk2, hvq]
  · have hvj : isValidLabelValue j = true := hj hj0
    by_cases hq0 : q = ""
    · simp [createLabelSelector, NewRequirement, selectorAdd, sortByKey,
        insertByKey, hj0, hq0, hk1, hvj]
    · have hvq : isValidLabelValue q = true := hq hq0
      simp [createLabelSelector, NewRequirement, selectorAdd, sortByKey,
        insertByKey, hj0, hq0, hk1, hk2, hvj, hvq, hlt]

/-- Claim C9 amended, witness: the characterization evaluated at the
concrete pair ("my-job", "my-queue"). -/
theorem C9_amended_witness :
    createLabelSelector "my-job" "my-queue" =
      Except.ok
        [⟨"volcano.sh/job-name", Operator.In, ["my-job"]⟩,
         ⟨"volcano.sh/queue-name", Operator.In, ["my-queue"]⟩] :=
  (C9_amended "my-job" "my-queue" (fun _ => by decide)
    (fun _ => by decide)).trans (by rfl)

/-- regScanRest adds at most one ready container. -/
theorem regScanRest_ready_le (s1 : RegScanState) (c : ContainerStatus) :
    (regScanRest s1 c).readyContainers ≤ s1.readyContainers + 1 := by
  unfold regScanRest
  split
  all_goals repeat' split
  all_goals simp

/-- regScanStep adds at most one ready container. -/
theorem regScanStep_ready_le (s : RegScanState) (c : ContainerStatus) :
    (regScanStep s c).readyContainers ≤ s.readyContainers + 1 := by
  unfold regScanStep
  split
  · split
    · simp
    · exact regScanRest_ready_le _ c
  · exact regScanRest_ready_le _ c

/-- A regScanStep fold adds at most one ready container per row. -/
theorem foldl_regScanStep_ready_le :
    ∀ (l : List ContainerStatus) (s : RegScanState),
      (l.foldl regScanStep s).readyContainers
        ≤ s.readyContainers + l.length := by
  intro l
  induction l with
  | nil => intro s; simp
  | cons c rest ih =>
    intro s
    have h1 := regScanStep_ready_le s c
    have h2 := ih (regScanStep s c)
    simp only [List.foldl_cons, List.length_cons]
    omega

/-- The regular-container scan counts at most one ready container per
status entry. -/
theorem regScan_ready_le (cs : List ContainerStatus) (s : RegScanState) :
    (regScan cs s).readyContainers ≤ s.readyContainers + cs.length := by
  have h := foldl_regScanStep_ready_le cs.reverse s
  simpa [regScan] using h

/-- Dropping the head of a list cannot enlarge a filter. -/
theorem filter_cons_ge (p : ContainerStatus → Bool) (c : ContainerStatus)
    (rest : List ContainerStatus) :
    (rest.filter p).length ≤ ((c :: rest).filter p).length := by
  simp only [List.filter_cons]
  split <;> simp

/-- A filter over a cons whose head satisfies the predicate counts the
head. -/
theorem filter_cons_pos (p : ContainerStatus → Bool) (c : ContainerStatus)
    (rest : List ContainerStatus) (h : p c = true) :
    ((c :: rest).filter p).length = (rest.filter p).length + 1 := by
  simp [List.filter_cons, h]

/-- The init-container scan counts ready containers only for status entries
whose name looks up to a restartable declared init container. -/
theorem initScanLoop_ready_le (inits : List Container) (numInits : Nat) :
    ∀ (cs : List ContainerStatus) (i : Nat) (s : InitScanState),
      (initScanLoop inits numInits i cs s).readyContainers
        ≤ s.readyContainers
          + (cs.filter (fun c =>
              isRestartableInitContainer (lookupInit inits c.Name))).length := by
  intro cs
  induction cs with
  | nil => intro i s; simp [initScanLoop]
  | cons c rest ih =>
    intro i s
    have hge := filter_cons_ge
      (fun c => isRestartableInitContainer (lookupInit inits c.Name)) c rest
    simp only [initScanLoop]
    split
    case h_1 t heq =>
      split
      case isTrue h0 =>
        refine le_trans (ih (i + 1) _) ?_
        simp only [apply_ite InitScanState.readyContainers, ite_self]
        omega
      case isFalse h0 =>
        split
        case isTrue hR =>
          have hp : isRestartableInitContainer (lookupInit inits c.Name)
              = true := ((Bool.and_eq_true _ _).mp hR).1
          have hpos := filter_cons_pos
            (fun c => isRestartableInitContainer (lookupInit inits c.Name))
            c rest hp
          refine le_trans (ih (i + 1) _) ?_
          simp only [apply_ite InitScanState.readyContainers, ite_self]
          split <;> omega
        case isFalse hR =>
          simp only [apply_ite InitScanState.readyContainers, ite_self]
          omega
    case h_2 heq =>
      split
      case isTrue hR =>
        have hp : isRestartableInitContainer (lookupInit inits c.Name)
            = true := ((Bool.and_eq_true _ _).mp hR).1
        have hpos := filter_cons_pos
          (fun c => isRestartableInitContainer (lookupInit inits c.Name))
          c rest hp
        refine le_trans (ih (i + 1) _) ?_
        simp only [apply_ite InitScanState.readyContainers, ite_self]
        split <;> omega
      case isFalse hR =>
        split
        case h_1 w heqw =>
          split
          case isTrue hw =>
            simp only [apply_ite InitScanState.readyContainers, ite_self]
            omega
          case isFalse hw =>
            simp only [apply_ite InitScanState.readyContainers, ite_self]
            omega
        case h_2 heqw =>
          simp only [apply_ite InitScanState.readyContainers, ite_self]
          omega

/-- A successful lookupInit returns a declared init container with the
looked-up name. -/
theorem lookupInit_mem (inits : List Container) (n : String) (d : Container)
    (h : lookupInit inits n = some d) : d ∈ inits ∧ d.Name = n := by
  induction inits with
  | nil => simp [lookupInit] at h
  | cons c rest ih =>
    simp only [lookupInit] at h
    rcases hrec : lookupInit rest n with _ | d'
    · rw [hrec] at h
      simp only at h
      split at h
      case isTrue hcn =>
        injection h with h1
        subst h1
        exact ⟨List.mem_cons_self c rest, by simpa using hcn⟩
      case isFalse hcn => cases h
    · rw [hrec] at h
      simp only at h
      injection h with h1
      subst h1
      obtain ⟨hm, hn⟩ := ih hrec
      exact ⟨List.mem_cons_of_mem _ hm, hn⟩

/-- Distinctly named container statuses whose names look up to restartable
declared init containers are at most as many as the restartable declared
init containers. -/
theorem filter_lookup_le (inits : List Container)
    (cs : List ContainerStatus)
    (hnodup : (cs.map ContainerStatus.Name).Nodup) :
    (cs.filter (fun c =>
        isRestartableInitContainer (lookupInit inits c.Name))).length
      ≤ (inits.filter
          (fun d => isRestartableInitContainer (some d))).length := by
  classical
  set p : ContainerStatus → Bool :=
    fun c => isRestartableInitContainer (lookupInit inits c.Name) with hpdef
  set l1 : List ContainerStatus := cs.filter p with hl1
  have hsubl : List.Sublist l1 cs := List.filter_sublist cs
  have hnames : (l1.map ContainerStatus.Name).Nodup :=
    List.Nodup.sublist (hsubl.map ContainerStatus.Name) hnodup
  set f : ContainerStatus → Container :=
    fun c => (lookupInit inits c.Name).getD ⟨c.Name, none⟩ with hfdef
  have hmem : ∀ x ∈ l1,
      f x ∈ inits.filter (fun d => isRestartableInitContainer (some d))
        ∧ (f x).Name = x.Name := by
    intro x hx
    have hpx : p x = true := List.of_mem_filter hx
    rcases hlk : lookupInit inits x.Name with _ | d
    · rw [hpdef] at hpx
      simp only [hlk, isRestartableInitContainer] at hpx
      cases hpx
    · obtain ⟨hdin, hdn⟩ := lookupInit_mem inits x.Name d hlk
      have hfx : f x = d := by simp [hfdef, hlk]
      refine ⟨?_, by rw [hfx, hdn]⟩
      rw [hfx]
      refine List.mem_filter.mpr ⟨hdin, ?_⟩
      rw [hpdef] at hpx
      simpa [hlk] using hpx
  have hinj : ∀ x ∈ l1, ∀ y ∈ l1, f x = f y → x = y := by
    intro x hx y hy hxy
    have hnx := (hmem x hx).2
    have hny := (hmem y hy).2
    have hne : x.Name = y.Name := by rw [← hnx, ← hny, hxy]
    exact List.inj_on_of_nodup_map hnames hx hy hne
  have hl1nodup : l1.Nodup := List.Nodup.of_map _ hnames
  have hmapnodup : (l1.map f).Nodup := hl1nodup.map_on hinj
  have hsubset :
      l1.map f ⊆ inits.filter (fun d => isRestartableInitContainer (some d)) := by
    intro y hy
    obtain ⟨x, hx, hyx⟩ := List.mem_map.mp hy
    rw [← hyx]
    exact (hmem x hx).1
  have hsp := List.subperm_of_subset hmapnodup hsubset
  have hlen := hsp.length_le
  simpa using hlen

/-- Claim C10: when each regular container status corresponds to a declared
regular container (statuses at most as many as declared) and the init
container statuses bear pairwise distinct names, each of a declared init
container, the ready count never exceeds the total expected container
count: the ReadyContainers cell "r/t" of printPod has r ≤ t. -/
theorem C10_readyLeTotal (humanDuration : Nat → String) (now : Nat)
    (pod : Pod)
    (hreg : pod.Status.ContainerStatuses.length
      ≤ pod.Spec.Containers.length)
    (hnodup : (pod.Status.InitContainerStatuses.map
      ContainerStatus.Name).Nodup)
    (hmtch : ∀ c ∈ pod.Status.InitContainerStatuses,
      ∃ d ∈ pod.Spec.InitContainers, d.Name = c.Name) :
    (podScanState pod).readyContainers
        ≤ pod.Spec.Containers.length
          + (pod.Spec.InitContainers.filter
              (fun c => isRestartableInitContainer (some c))).length
      ∧ (printPod humanDuration now pod).ReadyContainers
        = toString (podScanState pod).readyContainers ++ "/"
          ++ toString (pod.Spec.Containers.length
            + (pod.Spec.InitContainers.filter
                (fun c => isRestartableInitContainer (some c))).length) := by
  constructor
  · have hinitb : (initScanResult pod).readyContainers
        ≤ (pod.Status.InitContainerStatuses.filter (fun c =>
            isRestartableInitContainer
              (lookupInit pod.Spec.InitContainers c.Name))).length := by
      have h := initScanLoop_ready_le pod.Spec.InitContainers
        pod.Spec.InitContainers.length pod.Status.InitContainerStatuses 0
        { restarts := 0
          lastRestartDate := 0
          restartableInitContainerRestarts := 0
          lastRestartableInitContainerRestartDate := 0
          readyContainers := 0
          reason := preScanReason pod
          initializing := false }
      simpa [initScanResult] using h
    have hlkp := filter_lookup_le pod.Spec.InitContainers
      pod.Status.InitContainerStatuses hnodup
    have hregle : (regScanResult pod).readyContainers
        ≤ (initScanResult pod).readyContainers
          + pod.Status.ContainerStatuses.length := by
      unfold regScanResult
      exact regScan_ready_le _ _
    simp only [podScanState, apply_ite PodScan.readyContainers]
    split <;> omega
  · simp [printPod, foldlCountIf]

/-- Claim C10 witness: the bound evaluated on the concrete pod c8pod. -/
theorem C10_readyLeTotal_witness :
    (podScanState c8pod).readyContainers
      ≤ c8pod.Spec.Containers.length
        + (c8pod.Spec.InitContainers.filter
            (fun c => isRestartableInitContainer (some c))).length :=
  (C10_readyLeTotal humanDur0 0 c8pod (by decide) (by simp [c8pod])
    (by simp [c8pod])).1
